import Mathlib

/-
Verification of the nextrows-client contract layer: the endpoint operations
(`extract`, `runAppJson`, `getCredits`) and the `NextrowsClient` facade, as
implemented in src/api/extract.ts, src/api/apps.ts and src/client/index.ts.

JSON bodies are modelled by an inductive `Json` value type; the axios transport
is modelled by a pure function from requests to responses (or a transport
error), and every operation returns the list of HTTP requests it issued
alongside its result, so that "exactly one request" and header/URL/timeout
facts are statable.
-/

/-- JSON values, as produced by serializing a request object and as parsed
from a response body. Numbers are modelled as integers (the payloads at issue
carry only integral numbers, and the client never computes with them). -/
inductive Json where
  | null
  | bool (b : Bool)
  | num (n : Int)
  | str (s : String)
  | arr (items : List Json)
  | obj (fields : List (String × Json))

/-- Look a key up in an association list of JSON object fields. -/
def lookupField : List (String × Json) → String → Option Json
  | [], _ => none
  | (k, v) :: rest, key => if k = key then some v else lookupField rest key

/-- Look a key up in a JSON value; `none` on non-objects. -/
def Json.lookup : Json → String → Option Json
  | .obj fields, key => lookupField fields key
  | _, _ => none

/-- An outgoing HTTP request as assembled by the axios instance: method, full
URL (base URL ++ path), the instance's default headers, the instance's
timeout, and an optional JSON body. -/
structure HttpRequest where
  method : String
  url : String
  headers : List (String × String)
  timeout : Nat
  body : Option Json

/-- A raw HTTP response: status code and (parsed) JSON body. -/
structure HttpResponse where
  status : Nat
  body : Json

/-- The failure kinds the client code can surface (it throws `AxiosError`):
a non-2xx HTTP status carrying the status code and the service's error body,
or a network-level transport failure propagated with its cause. The code
performs no response-shape validation, so no decoding-failure kind exists. -/
inductive AxiosFailure where
  | apiFailure (status : Nat) (body : Json)
  | transportFailure (cause : String)

/-- The remote service / network, as the transport sees it: each request gets
either a response or a transport-level error cause. -/
def Server : Type := HttpRequest → Except String HttpResponse

/-- axios's default `validateStatus`: 2xx statuses resolve, others reject. -/
def validateStatus (status : Nat) : Bool :=
  decide (200 ≤ status) && decide (status < 300)

/-- Perform one HTTP request: a 2xx response resolves with its body verbatim
(no shape validation); a non-2xx response rejects with an API failure carrying
status and body; a network error rejects with a transport failure. -/
def axiosRequest (server : Server) (req : HttpRequest) : Except AxiosFailure Json :=
  match server req with
  | .error cause => .error (.transportFailure cause)
  | .ok resp =>
      if validateStatus resp.status then .ok resp.body
      else .error (.apiFailure resp.status resp.body)

/-- A configured axios instance: base URL, timeout, default headers
(`axios.create({ baseURL, timeout, headers })` in src/client/index.ts). -/
structure AxiosInstance where
  baseURL : String
  timeout : Nat
  headers : List (String × String)

/-- `axios.create`: pure construction of a configured instance; it performs
no network call. -/
def axiosCreate (baseURL : String) (timeout : Nat)
    (headers : List (String × String)) : AxiosInstance :=
  { baseURL := baseURL, timeout := timeout, headers := headers }

/-- The request a POST on this instance puts on the wire. -/
def AxiosInstance.mkPost (c : AxiosInstance) (path : String) (body : Json) :
    HttpRequest :=
  { method := "POST", url := c.baseURL ++ path, headers := c.headers,
    timeout := c.timeout, body := some body }

/-- The request a GET on this instance puts on the wire. -/
def AxiosInstance.mkGet (c : AxiosInstance) (path : String) : HttpRequest :=
  { method := "GET", url := c.baseURL ++ path, headers := c.headers,
    timeout := c.timeout, body := none }

/-- `client.post(path, body)`: issues exactly the one assembled request and
applies the axios resolution rule to the server's answer. Returns the list of
issued requests together with the outcome. -/
def AxiosInstance.post (c : AxiosInstance) (server : Server) (path : String)
    (body : Json) : List HttpRequest × Except AxiosFailure Json :=
  let req := c.mkPost path body
  ([req], axiosRequest server req)

/-- `client.get(path)`: issues exactly the one assembled request. -/
def AxiosInstance.get (c : AxiosInstance) (server : Server) (path : String) :
    List HttpRequest × Except AxiosFailure Json :=
  let req := c.mkGet path
  ([req], axiosRequest server req)

/-- src/api/extract.ts: the type of data source, `"url"` or `"text"`. -/
inductive ExtractType where
  | url
  | text

/-- The wire string of an `ExtractType`. -/
def ExtractType.toWire : ExtractType → String
  | .url => "url"
  | .text => "text"

/-- src/api/extract.ts `ExtractRequest`: source type, data sources, optional
prompt and optional schema (an opaque JSON value at this layer). -/
structure ExtractRequest where
  type : ExtractType
  data : List String
  prompt : Option String := none
  schema : Option Json := none

/-- Serialization of an optional object field: present values contribute a
key, absent values contribute nothing (JSON.stringify omits absent keys). -/
def optField (key : String) : Option Json → List (String × Json)
  | some v => [(key, v)]
  | none => []

/-- The JSON body `JSON.stringify` produces for an `ExtractRequest`: the
request object itself, `{type, data, prompt?, schema?}`, with the `prompt`
and `schema` keys omitted when the fields are absent. -/
def ExtractRequest.toJson (r : ExtractRequest) : Json :=
  .obj ([("type", .str r.type.toWire),
         ("data", .arr (r.data.map Json.str))]
    ++ optField "prompt" (r.prompt.map Json.str)
    ++ optField "schema" r.schema)

/-- src/api/extract.ts `extract`: one POST of the request, verbatim, to
`/v1/extract`; the response body is returned as-is. -/
def Api.extract (server : Server) (client : AxiosInstance)
    (request : ExtractRequest) : List HttpRequest × Except AxiosFailure Json :=
  client.post server "/v1/extract" request.toJson

/-- Whether a JSON value has the shape the `ExtractResponse` type declares:
an object whose `success` field is a boolean. -/
def isExtractResponseShape (j : Json) : Bool :=
  match j.lookup "success" with
  | some (.bool _) => true
  | _ => false

/-- src/api/apps.ts `AppInputValue`: a primitive scalar, `string | number |
boolean`. -/
inductive AppInputValue where
  | str (s : String)
  | num (n : Int)
  | bool (b : Bool)

/-- Serialization of an input value: each primitive maps to the JSON value of
the same kind; no coercion to string. -/
def AppInputValue.toJson : AppInputValue → Json
  | .str s => .str s
  | .num n => .num n
  | .bool b => .bool b

/-- src/api/apps.ts `AppInput`: a key/value input parameter. -/
structure AppInput where
  key : String
  value : AppInputValue

/-- Serialization of one input: the object `{key, value}`. -/
def AppInput.toJson (i : AppInput) : Json :=
  .obj [("key", .str i.key), ("value", i.value.toJson)]

/-- src/api/apps.ts `RunAppJsonRequest`: app id plus ordered inputs. -/
structure RunAppJsonRequest where
  appId : String
  inputs : List AppInput

/-- The JSON body `JSON.stringify` produces for a `RunAppJsonRequest`: the
request object itself, `{appId, inputs}`. -/
def RunAppJsonRequest.toJson (r : RunAppJsonRequest) : Json :=
  .obj [("appId", .str r.appId),
        ("inputs", .arr (r.inputs.map AppInput.toJson))]

/-- src/api/apps.ts `runAppJson`: one POST of the request, verbatim, to
`/v1/apps/run/json`; the response body is returned as-is. -/
def Api.runAppJson (server : Server) (client : AxiosInstance)
    (request : RunAppJsonRequest) : List HttpRequest × Except AxiosFailure Json :=
  client.post server "/v1/apps/run/json" request.toJson

/-- Modelled from the spec: src/api/credits.ts is not present under src/
(only its import in src/client/index.ts is); per the spec's endpoint table,
`getCredits` issues a GET to `/v1/credits` with no body and returns the
response body parsed verbatim. -/
def Api.getCredits (server : Server) (client : AxiosInstance) :
    List HttpRequest × Except AxiosFailure Json :=
  client.get server "/v1/credits"

/-- src/client/index.ts: the default base URL constant. -/
def BASE_URL : String := "https://api.nextrows.com"

/-- src/client/index.ts `NextrowsClientOptions`: optional base URL and
optional timeout. -/
structure NextrowsClientOptions where
  baseUrl : Option String := none
  timeout : Option Nat := none

/-- src/client/index.ts `NextrowsClient`: the facade. Its fields are the
public readonly `apiKey` parameter property and the private axios instance;
both are set in the constructor and never reassigned. -/
structure NextrowsClient where
  apiKey : String
  client : AxiosInstance

/-- The `NextrowsClient` constructor: destructures the options with defaults
`baseUrl = BASE_URL` and `timeout = 30000`, stores the key, and calls
`axios.create` with the bearer and content-type headers. It is pure: it takes
no transport and performs no network call, and it never rejects any key or
options value. -/
def NextrowsClient.make (apiKey : String)
    (options : NextrowsClientOptions := {}) : NextrowsClient :=
  let baseUrl := options.baseUrl.getD BASE_URL
  let timeout := options.timeout.getD 30000
  { apiKey := apiKey,
    client := axiosCreate baseUrl timeout
      [("Authorization", "Bearer " ++ apiKey),
       ("Content-Type", "application/json")] }

/-- The observable outcome of one facade method call: the facade value after
the call (the methods never mutate `this`, which the `after` field makes
checkable), the HTTP requests issued, and the returned or thrown result. -/
structure CallOutcome where
  after : NextrowsClient
  trace : List HttpRequest
  result : Except AxiosFailure Json

/-- Facade method `extract`: delegates to `Api.extract` on the owned axios
instance; reads `this` and does not modify it. -/
def NextrowsClient.extract (c : NextrowsClient) (server : Server)
    (request : ExtractRequest) : CallOutcome :=
  { after := c,
    trace := (Api.extract server c.client request).1,
    result := (Api.extract server c.client request).2 }

/-- Facade method `runAppJson`: delegates to `Api.runAppJson` on the owned
axios instance; reads `this` and does not modify it. -/
def NextrowsClient.runAppJson (c : NextrowsClient) (server : Server)
    (request : RunAppJsonRequest) : CallOutcome :=
  { after := c,
    trace := (Api.runAppJson server c.client request).1,
    result := (Api.runAppJson server c.client request).2 }

/-- Facade method `getCredits`: delegates to `Api.getCredits` on the owned
axios instance; reads `this` and does not modify it. -/
def NextrowsClient.getCredits (c : NextrowsClient) (server : Server) :
    CallOutcome :=
  { after := c,
    trace := (Api.getCredits server c.client).1,
    result := (Api.getCredits server c.client).2 }

/-! Concrete fixtures, mirroring the mock requests and responses of
src/client/index.test.ts, used to instantiate the theorems below. -/

/-- A facade built with the test API key and no options. -/
def testClient : NextrowsClient := NextrowsClient.make "sk-nr-test-api-key"

/-- The extract request of the test file: one URL and a prompt. -/
def testExtractReq : ExtractRequest :=
  { type := .url, data := ["https://example.com"],
    prompt := some "Extract product names and prices" }

/-- The 401 error body the service returns for an invalid key. -/
def err401Body : Json :=
  .obj [("error", .str "Unauthorized"), ("message", .str "Invalid API key")]

/-- A service that answers every request with status 401. -/
def server401 : Server := fun _ => .ok { status := 401, body := err401Body }

/-- The 200 body `{success:true, data:[{name:"Product 1",price:"$10.00"}]}`. -/
def okProductBody : Json :=
  .obj [("success", .bool true),
        ("data", .arr [.obj [("name", .str "Product 1"),
                             ("price", .str "$10.00")]])]

/-- A service that answers every request with status 200 and the product
body. -/
def server200 : Server := fun _ => .ok { status := 200, body := okProductBody }

/-- A service that answers every request with status 200 and a body that is
not an `ExtractResponse`-shaped object. -/
def serverShapeless : Server := fun _ => .ok { status := 200, body := .num 5 }

/-- C1: for every `ExtractRequest`, `extract` issues exactly one POST to
`/v1/extract` whose body is `{type, data, prompt?, schema?}` — the request's
fields verbatim, with the `prompt` and `schema` keys omitted from the body
when the corresponding field is absent. -/
theorem extract_posts_request_verbatim (server : Server) (c : AxiosInstance)
    (r : ExtractRequest) :
    (Api.extract server c r).1 = [c.mkPost "/v1/extract" r.toJson] ∧
    (Api.extract server c r).1.length = 1 ∧
    (c.mkPost "/v1/extract" r.toJson).method = "POST" ∧
    (c.mkPost "/v1/extract" r.toJson).url = c.baseURL ++ "/v1/extract" ∧
    (c.mkPost "/v1/extract" r.toJson).body = some r.toJson ∧
    r.toJson.lookup "type" = some (.str r.type.toWire) ∧
    r.toJson.lookup "data" = some (.arr (r.data.map Json.str)) ∧
    r.toJson.lookup "prompt" = r.prompt.map Json.str ∧
    r.toJson.lookup "schema" = r.schema := by
  refine ⟨rfl, rfl, rfl, rfl, rfl, ?_, ?_, ?_, ?_⟩ <;>
    cases h : r.prompt <;> cases h2 : r.schema <;>
      simp [ExtractRequest.toJson, Json.lookup, lookupField, optField, h, h2]

/-- C3: a non-2xx response makes `extract` reject with an `apiFailure`
carrying the status code and the service's error body, not resolve with a
success value, and the HTTP request is still made exactly once. -/
theorem extract_non2xx_raises_apiFailure (server : Server) (c : AxiosInstance)
    (r : ExtractRequest) (resp : HttpResponse)
    (hs : server (c.mkPost "/v1/extract" r.toJson) = .ok resp)
    (h2 : validateStatus resp.status = false) :
    (Api.extract server c r).2 = .error (.apiFailure resp.status resp.body) ∧
    (Api.extract server c r).1.length = 1 := by
  refine ⟨?_, rfl⟩
  simp [Api.extract, AxiosInstance.post, axiosRequest, hs, h2]

/-- Witness for C3 at the test fixture: a simulated 401 yields the
`apiFailure` with status 401 and the service's error body, after exactly one
request. -/
theorem extract_non2xx_raises_apiFailure_witness :
    (Api.extract server401 testClient.client testExtractReq).2
        = .error (.apiFailure 401 err401Body) ∧
    (Api.extract server401 testClient.client testExtractReq).1.length = 1 :=
  extract_non2xx_raises_apiFailure server401 testClient.client testExtractReq
    { status := 401, body := err401Body } rfl rfl

/-- C4: a 200 response makes `extract` resolve with the response body exactly
as received, with no field added, removed or transformed. -/
theorem extract_returns_200_body_verbatim (server : Server) (c : AxiosInstance)
    (r : ExtractRequest) (b : Json)
    (hs : server (c.mkPost "/v1/extract" r.toJson)
        = .ok { status := 200, body := b }) :
    (Api.extract server c r).2 = .ok b := by
  simp [Api.extract, AxiosInstance.post, axiosRequest, hs, validateStatus]

/-- Witness for C4 at the claim's concrete body
`{success:true, data:[{name:"Product 1",price:"$10.00"}]}`. -/
theorem extract_returns_200_body_verbatim_witness :
    (Api.extract server200 testClient.client testExtractReq).2
      = .ok okProductBody :=
  extract_returns_200_body_verbatim server200 testClient.client testExtractReq
    okProductBody rfl

/-- C2, counterexample: a 2xx response whose body does not match the
`ExtractResponse` shape is NOT surfaced as a decoding failure — `extract`
resolves with the mismatched body as a success value. -/
theorem extract_2xx_mismatched_body_cex :
    (Api.extract serverShapeless testClient.client testExtractReq).2
        = .ok (.num 5) ∧
    isExtractResponseShape (.num 5) = false :=
  ⟨rfl, rfl⟩

/-- Any error `axiosRequest` produces is an `apiFailure` for a non-2xx
status or a `transportFailure`; no other failure kind exists. -/
theorem axiosRequest_error_kinds (server : Server) (req : HttpRequest)
    (e : AxiosFailure) (he : axiosRequest server req = .error e) :
    (∃ s b, e = .apiFailure s b ∧ validateStatus s = false) ∨
    (∃ cause, e = .transportFailure cause) := by
  unfold axiosRequest at he
  split at he
  next cause _ =>
    right
    exact ⟨cause, (Except.error.inj he).symm⟩
  next resp _ =>
    by_cases h2 : validateStatus resp.status = true
    · rw [if_pos h2] at he
      exact absurd he (by simp)
    · rw [if_neg h2] at he
      left
      exact ⟨resp.status, resp.body, (Except.error.inj he).symm,
             Bool.eq_false_iff.mpr h2⟩

/-- C2, amended: a 2xx response body is returned to the caller verbatim
whatever its shape — the code performs no response-shape validation and
defines no decoding-failure kind; the only failures an endpoint operation can
produce are API failures for non-2xx statuses and transport failures. -/
theorem extract_2xx_body_returned_unvalidated (server : Server)
    (c : AxiosInstance) (r : ExtractRequest) :
    (∀ resp : HttpResponse,
      server (c.mkPost "/v1/extract" r.toJson) = .ok resp →
      validateStatus resp.status = true →
      (Api.extract server c r).2 = .ok resp.body) ∧
    (∀ e : AxiosFailure, (Api.extract server c r).2 = .error e →
      (∃ s b, e = .apiFailure s b ∧ validateStatus s = false) ∨
      (∃ cause, e = .transportFailure cause)) := by
  constructor
  · intro resp hs h2
    simp [Api.extract, AxiosInstance.post, axiosRequest, hs, h2]
  · intro e he
    exact axiosRequest_error_kinds server (c.mkPost "/v1/extract" r.toJson) e he

/-- Witness for C2's amended theorem: the shapeless 200 body is returned
verbatim as a success value. -/
theorem extract_2xx_body_returned_unvalidated_witness :
    (Api.extract serverShapeless testClient.client testExtractReq).2
      = .ok (.num 5) :=
  (extract_2xx_body_returned_unvalidated serverShapeless testClient.client
      testExtractReq).1 { status := 200, body := .num 5 } rfl rfl

/-- C5: `runAppJson` issues one POST to `/v1/apps/run/json` whose body is
`{appId, inputs}` verbatim, each input value serialized at its own primitive
kind (string, number or boolean, never coerced to a string), and resolves
with the response body as received. -/
theorem runAppJson_posts_request_verbatim (server : Server) (c : AxiosInstance)
    (r : RunAppJsonRequest) (b : Json)
    (hs : server (c.mkPost "/v1/apps/run/json" r.toJson)
        = .ok { status := 200, body := b }) :
    (Api.runAppJson server c r).1 = [c.mkPost "/v1/apps/run/json" r.toJson] ∧
    r.toJson.lookup "appId" = some (.str r.appId) ∧
    r.toJson.lookup "inputs" = some (.arr (r.inputs.map AppInput.toJson)) ∧
    (∀ i : AppInput, (AppInput.toJson i).lookup "key" = some (.str i.key) ∧
        (AppInput.toJson i).lookup "value" = some i.value.toJson) ∧
    (∀ s : String, AppInputValue.toJson (.str s) = .str s) ∧
    (∀ n : Int, AppInputValue.toJson (.num n) = .num n) ∧
    (∀ bv : Bool, AppInputValue.toJson (.bool bv) = .bool bv) ∧
    (∀ n : Int, ∀ s : String, AppInputValue.toJson (.num n) ≠ .str s) ∧
    (Api.runAppJson server c r).2 = .ok b := by
  refine ⟨rfl, ?_, ?_, ?_, fun s => rfl, fun n => rfl, fun bv => rfl, ?_, ?_⟩
  · simp [RunAppJsonRequest.toJson, Json.lookup, lookupField]
  · simp [RunAppJsonRequest.toJson, Json.lookup, lookupField]
  · intro i
    exact ⟨rfl, by simp [AppInput.toJson, Json.lookup, lookupField]⟩
  · intro n s h
    simp [AppInputValue.toJson] at h
  · simp [Api.runAppJson, AxiosInstance.post, axiosRequest, hs, validateStatus]

/-- The run-app request of the spec's example: a string-valued and a
number-valued input. -/
def testRunAppReq : RunAppJsonRequest :=
  { appId := "abc123xyz",
    inputs := [{ key := "url", value := .str "https://example.com" },
               { key := "maxItems", value := .num 10 }] }

/-- A 200 run-app response body with tabular data. -/
def okRunAppBody : Json :=
  .obj [("success", .bool true),
        ("data", .obj [("columns", .arr [.str "Name", .str "Price"]),
                       ("rows", .arr [.arr [.str "Product A", .num 29]])]),
        ("runId", .str "run_abc123"),
        ("elapsedTime", .num 2500)]

/-- A service that answers every request with status 200 and the run-app
body. -/
def serverRunApp : Server := fun _ => .ok { status := 200, body := okRunAppBody }

/-- Witness for C5 at the spec's example inputs. -/
theorem runAppJson_posts_request_verbatim_witness :
    (Api.runAppJson serverRunApp testClient.client testRunAppReq).1
        = [testClient.client.mkPost "/v1/apps/run/json" testRunAppReq.toJson] ∧
    testRunAppReq.toJson.lookup "appId" = some (.str "abc123xyz") ∧
    (Api.runAppJson serverRunApp testClient.client testRunAppReq).2
        = .ok okRunAppBody := by
  have h := runAppJson_posts_request_verbatim serverRunApp testClient.client
    testRunAppReq okRunAppBody rfl
  exact ⟨h.1, h.2.1, h.2.2.2.2.2.2.2.2⟩

/-- C6: every request issued by any facade operation carries the
`Authorization: Bearer <key>` and `Content-Type: application/json` headers,
is addressed to the configured base URL (the default
`https://api.nextrows.com` when none is supplied), and carries the configured
timeout (the default 30000 ms when none is supplied); and every operation
leaves the facade — hence its construction-time configuration — unchanged. -/
theorem client_requests_carry_config (apiKey : String)
    (opts : NextrowsClientOptions) (server : Server) (r1 : ExtractRequest)
    (r2 : RunAppJsonRequest) (req : HttpRequest)
    (h : req ∈ ((NextrowsClient.make apiKey opts).extract server r1).trace ∨
         req ∈ ((NextrowsClient.make apiKey opts).runAppJson server r2).trace ∨
         req ∈ ((NextrowsClient.make apiKey opts).getCredits server).trace) :
    req.headers = [("Authorization", "Bearer " ++ apiKey),
                   ("Content-Type", "application/json")] ∧
    (∃ path, req.url = opts.baseUrl.getD BASE_URL ++ path) ∧
    req.timeout = opts.timeout.getD 30000 ∧
    ((NextrowsClient.make apiKey opts).extract server r1).after
        = NextrowsClient.make apiKey opts ∧
    ((NextrowsClient.make apiKey opts).runAppJson server r2).after
        = NextrowsClient.make apiKey opts ∧
    ((NextrowsClient.make apiKey opts).getCredits server).after
        = NextrowsClient.make apiKey opts := by
  refine ⟨?_, ?_, ?_, rfl, rfl, rfl⟩ <;>
    rcases h with h | h | h <;>
      simp only [NextrowsClient.extract, NextrowsClient.runAppJson,
        NextrowsClient.getCredits, Api.extract, Api.runAppJson, Api.getCredits,
        AxiosInstance.post, AxiosInstance.get, AxiosInstance.mkPost,
        AxiosInstance.mkGet, NextrowsClient.make, axiosCreate,
        List.mem_singleton] at h <;>
      subst h
  · rfl
  · rfl
  · rfl
  · exact ⟨"/v1/extract", rfl⟩
  · exact ⟨"/v1/apps/run/json", rfl⟩
  · exact ⟨"/v1/credits", rfl⟩
  · rfl
  · rfl
  · rfl

/-- Witness for C6: with the test key and no options, the single request of
an extract call carries the bearer header, the default base URL and the
default timeout, and the facade is unchanged. -/
theorem client_requests_carry_config_witness :
    (testClient.client.mkPost "/v1/extract" testExtractReq.toJson).headers
        = [("Authorization", "Bearer sk-nr-test-api-key"),
           ("Content-Type", "application/json")] ∧
    (∃ path, (testClient.client.mkPost "/v1/extract" testExtractReq.toJson).url
        = ({} : NextrowsClientOptions).baseUrl.getD BASE_URL ++ path) ∧
    (testClient.client.mkPost "/v1/extract" testExtractReq.toJson).timeout
        = 30000 := by
  have h := client_requests_carry_config "sk-nr-test-api-key" {} server200
    testExtractReq testRunAppReq
    (testClient.client.mkPost "/v1/extract" testExtractReq.toJson)
    (Or.inl (List.mem_singleton.mpr rfl))
  exact ⟨h.1, h.2.1, h.2.2.1⟩

/-- C7: construction is total and performs no network call — for every key
(the empty string included) and every options value it succeeds and equals a
pure function of the key and options alone; an invalid credential surfaces
only later, as an `apiFailure` on the first call. -/
theorem construction_total_and_permissive (apiKey : String)
    (opts : NextrowsClientOptions) :
    NextrowsClient.make apiKey opts
      = { apiKey := apiKey,
          client := axiosCreate (opts.baseUrl.getD BASE_URL)
            (opts.timeout.getD 30000)
            [("Authorization", "Bearer " ++ apiKey),
             ("Content-Type", "application/json")] } ∧
    (∀ errBody : Json, ∀ r : ExtractRequest,
      ((NextrowsClient.make apiKey opts).extract
          (fun _ => .ok { status := 401, body := errBody }) r).result
        = .error (.apiFailure 401 errBody)) := by
  refine ⟨rfl, fun errBody r => ?_⟩
  simp [NextrowsClient.extract, Api.extract, AxiosInstance.post, axiosRequest,
    validateStatus]

/-- C8: facade calls are stateless and independent — each call leaves the
facade unchanged, a call made after another returns exactly what it returns
fresh, and a call's trace and result depend only on the construction-time
axios configuration and the call's own request. -/
theorem facade_calls_independent (c c' : NextrowsClient) (server : Server)
    (r1 r2 : ExtractRequest) (a : RunAppJsonRequest)
    (hcfg : c.client = c'.client) :
    (c.extract server r1).after = c ∧
    (c.runAppJson server a).after = c ∧
    (c.getCredits server).after = c ∧
    ((c.extract server r1).after.extract server r2).result
        = (c.extract server r2).result ∧
    ((c.extract server r1).after.runAppJson server a).result
        = (c.runAppJson server a).result ∧
    (c.extract server r1).trace = (c'.extract server r1).trace ∧
    (c.extract server r1).result = (c'.extract server r1).result ∧
    (c.runAppJson server a).trace = (c'.runAppJson server a).trace ∧
    (c.runAppJson server a).result = (c'.runAppJson server a).result := by
  refine ⟨rfl, rfl, rfl, rfl, rfl, ?_, ?_, ?_, ?_⟩ <;>
    simp [NextrowsClient.extract, NextrowsClient.runAppJson, hcfg]

/-- Witness for C8: two facades with the same configuration, concrete
requests; sequencing and cross-facade independence hold at them. -/
theorem facade_calls_independent_witness :
    (testClient.extract server200 testExtractReq).after = testClient ∧
    ((testClient.extract server200 testExtractReq).after.extract server200
        testExtractReq).result
      = (testClient.extract server200 testExtractReq).result := by
  have h := facade_calls_independent testClient testClient server200
    testExtractReq testExtractReq testRunAppReq rfl
  exact ⟨h.1, h.2.2.2.1⟩

/-- C9: `extract` performs no client-side enforcement of the documented
bounds — a request with an empty `data` array, more than 20 sources, or a
prompt longer than 2000 characters is still sent to the service unchanged,
and the outcome is exactly the transport's verdict on that unchanged request
(no local validation error). -/
theorem extract_no_client_side_validation (server : Server)
    (c : AxiosInstance) (r : ExtractRequest)
    (_h : r.data = [] ∨ 20 < r.data.length ∨
         ∃ p, r.prompt = some p ∧ 2000 < p.length) :
    (Api.extract server c r).1 = [c.mkPost "/v1/extract" r.toJson] ∧
    (Api.extract server c r).2
        = axiosRequest server (c.mkPost "/v1/extract" r.toJson) :=
  ⟨rfl, rfl⟩

/-- Witness for C9 at a request with an empty `data` array: it is still sent
unchanged and the service's answer decides the outcome. -/
theorem extract_no_client_side_validation_witness :
    (Api.extract server200 testClient.client
        { type := .url, data := [] }).1
      = [testClient.client.mkPost "/v1/extract"
          ({ type := .url, data := [] } : ExtractRequest).toJson] ∧
    (Api.extract server200 testClient.client
        { type := .url, data := [] }).2
      = axiosRequest server200 (testClient.client.mkPost "/v1/extract"
          ({ type := .url, data := [] } : ExtractRequest).toJson) :=
  extract_no_client_side_validation server200 testClient.client
    { type := .url, data := [] } (Or.inl rfl)

/-- C10: the credential is stored unmodified in the public `apiKey` field —
it equals the string passed at construction, and no facade operation changes
it for the lifetime of the instance. -/
theorem apiKey_public_and_immutable (key : String)
    (opts : NextrowsClientOptions) (server : Server) (r : ExtractRequest)
    (a : RunAppJsonRequest) :
    (NextrowsClient.make key opts).apiKey = key ∧
    ((NextrowsClient.make key opts).extract server r).after.apiKey = key ∧
    ((NextrowsClient.make key opts).runAppJson server a).after.apiKey = key ∧
    ((NextrowsClient.make key opts).getCredits server).after.apiKey = key :=
  ⟨rfl, rfl, rfl, rfl⟩
